import Mathlib

/-!
Shallow embedding of the c-aff4 sources under verification:
- src/data_store.h : the DataStore resolver, its ObjectCache, the
  AFF4FactoryOpen factory/cache algorithm and the AFF4ScopedPtr handle;
- src/aff4imager.cc : the ImageStream imaging loop, parseOptions and main.

Machine state (object identity, the cache, the triple store) is passed
explicitly; heap addresses are natural numbers, so pointer identity is
address equality.  Parts of the repository that these two files use but
whose sources are absent (rdf.h, aff4_base.h, data_store.cc, the lexicon
and the concrete AFF4Object subclasses) are modelled from the spec and
marked as such on each definition.
-/

/-- An AFF4 URN identifier.  Equality and hashing are by the normalized
string form; data_store.h keys every map by urn.value. -/
structure URN where
  value : String
deriving DecidableEq, Repr

/-- The characters strictly before the first "://" separator, or none when
no such separator occurs. -/
def schemeChars : List Char → Option (List Char)
  | [] => none
  | ':' :: '/' :: '/' :: _ => some []
  | c :: rest => (schemeChars rest).map (fun s => c :: s)

/-- Modelled from the spec: URN::Parse of rdf.h is not under src/.  The spec
gives an Identifier a derived decomposition (scheme, path, fragment); the
scheme component is the text before a "://" separator, and a bare path
falls back to the default backing-stream scheme "file". -/
def URN.parseScheme (u : URN) : String :=
  match schemeChars u.value.data with
  | some s => { data := s }
  | none => "file"

/-- Modelled from the spec: the reserved "type" attribute URN (the lexicon
header is not under src/); only its identity as a key matters here. -/
def AFF4_TYPE : URN := { value := "http://aff4.org/Schema#type" }

/-- The runtime description of one registered AFF4 class: its concrete type
name, the capability interfaces (base classes) a dynamic_cast to which
succeeds, and the outcome of its LoadFromURN virtual.  The concrete object
implementations are not under src/, so the load outcome is carried
abstractly, per class. -/
structure AFF4Class where
  typeName : String
  bases : List String
  loadOk : Bool
deriving DecidableEq, Repr

/-- dynamic_cast to capability T: succeeds exactly when the object's
concrete class is T or lists T among its supported bases. -/
def dynCast (T : String) (cls : AFF4Class) : Bool :=
  cls.typeName == T || cls.bases.contains T

/-- The process-wide class registry reached through GetAFF4ClassFactory:
a map from a type-identifier string to the class it constructs. -/
abbrev ClassFactory := List (String × AFF4Class)

/-- ClassFactory::CreateInstance keyed by a type string; none models the
null unique_ptr returned when the key is unregistered. -/
def CreateInstance (reg : ClassFactory) (key : String) : Option AFF4Class :=
  (reg.find? (fun p => p.1 == key)).map (fun p => p.2)

/-- A live AFF4Object instance: its concrete class, its urn field (assigned
by the factory just before LoadFromURN) and a mutable data payload used to
observe mutations made through handles. -/
structure AFF4Object where
  cls : AFF4Class
  urnValue : String
  data : String
deriving DecidableEq, Repr

/-- The heap of live objects; the Nat component is the address, so pointer
identity is address equality. -/
abbrev Heap := List (Nat × AFF4Object)

/-- Read the object at an address. -/
def heapFind (h : Heap) (i : Nat) : Option AFF4Object :=
  (h.find? (fun p => p.1 == i)).map (fun p => p.2)

/-- A mutation performed through a handle that wraps address i: overwrite
the data payload of the object stored at i. -/
def heapWrite (h : Heap) (i : Nat) (d : String) : Heap :=
  h.map (fun p => if p.1 == i then (p.1, { p.2 with data := d }) else p)

/-- The attribute table of one subject: attribute URN value to the stored
RDFValue.  The only values the factory inspects are URN-valued type
attributes, kept here as their serialized string. -/
abbrev AFF4_Attributes := List (String × String)

/-- The resolver state of data_store.h: the triple store of the
MemoryDataStore, the ObjectCache (urn.value to object address; the cache
owns all objects at all times), the heap of live objects, and the next
fresh heap address. -/
structure DataStore where
  store : List (String × AFF4_Attributes)
  ObjectCache : List (String × Nat)
  heap : Heap
  nextId : Nat
deriving DecidableEq, Repr

/-- Modelled from the spec: MemoryDataStore::Get (data_store.cc is not
under src/).  Get returns an associated value under (subject, attribute)
or reports absence; absence of the subject is the same miss as absence of
the attribute. -/
def DataStore.Get (ds : DataStore) (urn attr : URN) : Option String :=
  match ds.store.find? (fun p => p.1 == urn.value) with
  | some (_, attrs) => (attrs.find? (fun p => p.1 == attr.value)).map (fun p => p.2)
  | none => none

/-- One LOG(WARNING) record emitted by the factory: the two values
interpolated into "Failed to load (urn) as (type)" at data_store.h:298. -/
structure Warning where
  urnPart : String
  typePart : String
deriving DecidableEq, Repr

/-- The result of one AFF4FactoryOpen call: the wrapped pointer of the
returned AFF4ScopedPtr (none models the empty handle), the resolver state
after the call, and the warnings logged during it. -/
structure OpenResult where
  handle : Option Nat
  state : DataStore
  warnings : List Warning
deriving DecidableEq, Repr

/-- DataStore::AFF4FactoryOpen of data_store.h:268-310, translated branch
by branch.  T is the template capability argument; dynamic_cast is
dynCast.  On a cache hit the cached instance's Prepare hook runs (its body
is not under src/ and touches no resolver state modelled here) and the
handle wraps the cached pointer narrowed to T.  On a miss the factory
consults the AFF4_TYPE triple, else the URN scheme, builds the class via
CreateInstance, runs LoadFromURN, and only on load success caches the
object (keyed by urn.value) and returns the narrowed pointer computed
before the cache insertion. -/
def DataStore.AFF4FactoryOpen (reg : ClassFactory) (T : String) (ds : DataStore)
    (urn : URN) : OpenResult :=
  match ds.ObjectCache.find? (fun p => p.1 == urn.value) with
  | some (_, oid) =>
    match heapFind ds.heap oid with
    | some obj =>
      { handle := if dynCast T obj.cls then some oid else none
        state := ds
        warnings := [] }
    | none => { handle := none, state := ds, warnings := [] }
  | none =>
    let typeGet := ds.Get urn AFF4_TYPE
    let type_urn : String := typeGet.getD ""
    let obj : Option AFF4Class :=
      match typeGet with
      | some tv => CreateInstance reg tv
      | none => CreateInstance reg (URN.parseScheme urn)
    match obj with
    | none => { handle := none, state := ds, warnings := [] }
    | some cls =>
      if cls.loadOk then
        { handle := if dynCast T cls then some ds.nextId else none
          state := { store := ds.store
                     ObjectCache := (urn.value, ds.nextId) :: ds.ObjectCache
                     heap := (ds.nextId, { cls := cls, urnValue := urn.value, data := "" }) :: ds.heap
                     nextId := ds.nextId + 1 }
          warnings := [] }
      else
        { handle := none
          state := ds
          warnings := [{ urnPart := urn.value, typePart := type_urn }] }

/-- The single registry key the factory consults on a cache miss: the
declared AFF4_TYPE value when one is present, otherwise the URN scheme
(data_store.h:281-289). -/
def DataStore.openKey (ds : DataStore) (urn : URN) : String :=
  match ds.Get urn AFF4_TYPE with
  | some tv => tv
  | none => URN.parseScheme urn

/-- AFF4ScopedPtr of data_store.h:32-87: the move-only checkout handle.
Only the wrapped pointer matters for the dereference contract; none models
the NULL pointer held after the default constructor or after release(). -/
structure AFF4ScopedPtr where
  ptr : Option Nat
deriving DecidableEq, Repr

/-- What executing a dereference operator on a handle does. -/
inductive DerefOutcome
  | returns (i : Nat)
  | checkFailed
  | nullDereference
deriving DecidableEq, Repr

/-- operator-> of data_store.h:53-56: CHECK(ptr_ != NULL) fails fast on a
null wrapped pointer, otherwise the pointer is returned. -/
def AFF4ScopedPtr.arrow (h : AFF4ScopedPtr) : DerefOutcome :=
  match h.ptr with
  | some i => DerefOutcome.returns i
  | none => DerefOutcome.checkFailed

/-- operator* of data_store.h:62-64: the body is only return *ptr_, with no
CHECK, so a null wrapped pointer is dereferenced silently. -/
def AFF4ScopedPtr.star (h : AFF4ScopedPtr) : DerefOutcome :=
  match h.ptr with
  | some i => DerefOutcome.returns i
  | none => DerefOutcome.nullDereference

/-- release() of data_store.h:70-74: hands out the wrapped pointer and
nulls it.  The move constructor (data_store.h:80-83) leaves its source in
exactly this released state. -/
def AFF4ScopedPtr.release (h : AFF4ScopedPtr) : Option Nat × AFF4ScopedPtr :=
  (h.ptr, { ptr := none })

/-- Modelled from the spec: AFF4Stream::Read of the input stream (the
concrete stream implementations are not under src/).  Read(n) returns the
next min(n, remaining) bytes of the stream: fewer than n only at
end-of-stream, zero bytes signalling exhaustion. -/
def streamRead (remaining : List Char) (n : Nat) : List Char :=
  remaining.take n

/-- The default buffer_size argument of ImageStream (aff4imager.cc:35). -/
def ImageStream_default_buffer : Nat := 1024 * 1024

/-- The while(1) imaging loop of ImageStream (aff4imager.cc:66-73): read a
chunk of at most bufferSize bytes from the input, break on a zero-length
read, otherwise append the chunk to the bytes written to the image and
continue.  remaining is the unread suffix of the input; written is the
byte sequence written to the image so far. -/
def imageStreamLoop (bufferSize : Nat) (remaining written : List Char) : List Char :=
  if (streamRead remaining bufferSize).length = 0 then written
  else imageStreamLoop bufferSize (remaining.drop bufferSize)
    (written ++ streamRead remaining bufferSize)
termination_by remaining.length
decreasing_by
  simp only [streamRead, List.length_take, List.length_drop] at *
  omega

/-- Modelled from the spec: the AFF4Status taxonomy (aff4_base.h is not
under src/).  The spec gives success plus the distinct failure kinds
NotFound, IOError, InvalidInput and ParseError, each failure kind a
distinct non-zero process exit value; the imager sources use STATUS_OK,
INVALID_INPUT and IO_ERROR. -/
inductive AFF4Status
  | STATUS_OK
  | NOT_FOUND
  | IO_ERROR
  | INVALID_INPUT
  | PARSING_ERROR
deriving DecidableEq, Repr

/-- Modelled from the spec: the integer value of each AFF4Status
enumerator, 0 for success and a distinct non-zero integer for each
failure kind. -/
def AFF4Status.code : AFF4Status → Int
  | AFF4Status.STATUS_OK => 0
  | AFF4Status.NOT_FOUND => -1
  | AFF4Status.IO_ERROR => -2
  | AFF4Status.INVALID_INPUT => -3
  | AFF4Status.PARSING_ERROR => -4

/-- Modelled from the spec: the write-mode attribute URN set by the imager
(the lexicon header is not under src/); only its identity matters. -/
def AFF4_STREAM_WRITE_MODE : String := "http://aff4.org/Schema#writable"

/-- The option values TCLAP's cmd.parse hands back to parseOptions
(aff4imager.cc:85-113): each switch's isSet state, the optional --in and
--out values (some exactly when isSet), and the positional volume list. -/
structure CmdOptions where
  view : Bool
  verbose : Bool
  truncate : Bool
  input : Option String
  output : Option String
  positional : List String
deriving DecidableEq, Repr

/-- Outcome of the TCLAP command-line parse: the parsed options, or an
ArgException carrying e.error() and e.argId(). -/
inductive ParsedCmdLine
  | ok (opts : CmdOptions)
  | argError (err : String) (argId : String)
deriving DecidableEq, Repr

/-- The observable side effects parseOptions performs, in program order. -/
inductive Effect
  | coutError (msg : String)
  | setLoggingInfo
  | resolverSet (subj attr val : String)
  | callImageStream (input output : String)
  | coutFilename (index : Nat) (name : String)
deriving DecidableEq, Repr

/-- parseOptions of aff4imager.cc:79-148, given the outcome of the TCLAP
parse and, abstractly, the status the ImageStream call would return for
given endpoints (ImageStream performs stream I/O through the resolver;
only its status flows back into parseOptions).  Returns the AFF4Status
parseOptions returns together with the effects it performed, in order:
a caught ArgException prints "ERROR: ..." and falls through to the final
return STATUS_OK; --in without --out prints an error and returns
INVALID_INPUT before any resolver Set or ImageStream call; --in with
--out sets the write mode ("truncate" when -t is set, else "append") on
the output URN and tail-calls ImageStream; without --in the positional
volume names are printed and STATUS_OK is returned. -/
def parseOptions (imageStreamResult : String → String → AFF4Status)
    (cmd : ParsedCmdLine) : AFF4Status × List Effect :=
  match cmd with
  | ParsedCmdLine.argError err argId =>
    (AFF4Status.STATUS_OK, [Effect.coutError (err ++ " " ++ argId)])
  | ParsedCmdLine.ok opts =>
    let logEff := if opts.verbose then [Effect.setLoggingInfo] else []
    match opts.input with
    | some inputPath =>
      match opts.output with
      | none =>
        (AFF4Status.INVALID_INPUT,
         logEff ++ [Effect.coutError "Can not specify an input without an output"])
      | some outputPath =>
        (imageStreamResult inputPath outputPath,
         logEff ++ [Effect.resolverSet outputPath AFF4_STREAM_WRITE_MODE
                      (if opts.truncate then "truncate" else "append"),
                    Effect.callImageStream inputPath outputPath])
    | none =>
      (AFF4Status.STATUS_OK,
       logEff ++ (opts.positional.enum.map (fun p => Effect.coutFilename p.1 p.2)))

/-- main of aff4imager.cc:151-163: exit status 0 when parseOptions returned
STATUS_OK, otherwise the status itself is returned as the exit code. -/
def mainExitCode (res : AFF4Status) : Int :=
  if res = AFF4Status.STATUS_OK then 0 else res.code

/-- The effects that perform file I/O or prepare it on the resolver:
setting the write-mode attribute and calling ImageStream (which opens the
streams and writes the image). -/
def Effect.touchesIO : Effect → Bool
  | Effect.resolverSet _ _ _ => true
  | Effect.callImageStream _ _ => true
  | _ => false

/-- A demonstration concrete class: a backing file stream whose
dynamic_cast to AFF4Stream succeeds and whose LoadFromURN succeeds. -/
def demoCls : AFF4Class :=
  { typeName := "FileBackedObject", bases := ["AFF4Stream", "AFF4Object"], loadOk := true }

/-- A demonstration registry with only the "file" scheme registered. -/
def demoReg : ClassFactory := [("file", demoCls)]

/-- A fresh resolver: empty triple store, empty object cache. -/
def demoDS : DataStore := { store := [], ObjectCache := [], heap := [], nextId := 0 }

/-- A file-scheme URN. -/
def demoURN : URN := { value := "file://tmp/input.dd" }

/-- The demonstration object the factory builds for demoURN. -/
def demoObj : AFF4Object := { cls := demoCls, urnValue := demoURN.value, data := "" }

/-- A resolver that already caches demoObj at address 0 under demoURN. -/
def demoCachedDS : DataStore :=
  { store := [], ObjectCache := [(demoURN.value, 0)], heap := [(0, demoObj)], nextId := 1 }

/-- A URN with an unregistered scheme and no declared type. -/
def unknownURN : URN := { value := "zz-unknown://x" }

/-- A concrete class whose LoadFromURN fails. -/
def c5Cls : AFF4Class :=
  { typeName := "FileBackedObject", bases := ["AFF4Stream"], loadOk := false }

/-- A registry mapping the "file" scheme to the failing-load class. -/
def c5Reg : ClassFactory := [("file", c5Cls)]

/-- A fresh resolver for the load-failure scenario. -/
def c5DS : DataStore := { store := [], ObjectCache := [], heap := [], nextId := 0 }

/-- The URN whose open fails its self-load. -/
def c5URN : URN := { value := "file://missing.dd" }

/-- On a cache miss, AFF4FactoryOpen is determined by the registry's answer
for the one key openKey selects. -/
theorem AFF4FactoryOpen_miss_eq (reg : ClassFactory) (T : String) (ds : DataStore) (urn : URN)
    (hmiss : ds.ObjectCache.find? (fun p => p.1 == urn.value) = none) :
    ds.AFF4FactoryOpen reg T urn =
      match CreateInstance reg (ds.openKey urn) with
      | none => { handle := none, state := ds, warnings := [] }
      | some cls =>
        if cls.loadOk then
          { handle := if dynCast T cls then some ds.nextId else none
            state := { store := ds.store
                       ObjectCache := (urn.value, ds.nextId) :: ds.ObjectCache
                       heap := (ds.nextId, { cls := cls, urnValue := urn.value, data := "" }) :: ds.heap
                       nextId := ds.nextId + 1 }
            warnings := [] }
        else
          { handle := none
            state := ds
            warnings := [{ urnPart := urn.value, typePart := (ds.Get urn AFF4_TYPE).getD "" }] } := by
  unfold DataStore.AFF4FactoryOpen DataStore.openKey
  rw [hmiss]
  cases h : ds.Get urn AFF4_TYPE <;> simp [h]

/-- On a cache hit, AFF4FactoryOpen narrows the cached object and leaves
the resolver state unchanged. -/
theorem AFF4FactoryOpen_hit_eq (reg : ClassFactory) (T : String) (ds : DataStore) (urn : URN)
    (k : String) (oid : Nat)
    (hhit : ds.ObjectCache.find? (fun p => p.1 == urn.value) = some (k, oid)) :
    ds.AFF4FactoryOpen reg T urn =
      match heapFind ds.heap oid with
      | some obj =>
        { handle := if dynCast T obj.cls then some oid else none
          state := ds
          warnings := [] }
      | none => { handle := none, state := ds, warnings := [] } := by
  unfold DataStore.AFF4FactoryOpen
  rw [hhit]

/-- With a positive buffer size, the imaging loop appends exactly the
unread input to the bytes already written. -/
theorem imageStreamLoop_append (bufferSize : Nat) (h : 1 ≤ bufferSize) :
    ∀ remaining written : List Char,
      imageStreamLoop bufferSize remaining written = written ++ remaining := by
  have key : ∀ (n : Nat) (remaining written : List Char), remaining.length ≤ n →
      imageStreamLoop bufferSize remaining written = written ++ remaining := by
    intro n
    induction n with
    | zero =>
      intro remaining written hle
      have hnil : remaining = [] := List.length_eq_zero.mp (Nat.le_zero.mp hle)
      subst hnil
      rw [imageStreamLoop]
      simp [streamRead]
    | succ n ih =>
      intro remaining written hle
      rw [imageStreamLoop]
      by_cases hz : (streamRead remaining bufferSize).length = 0
      · rw [if_pos hz]
        have hnil : remaining = [] := by
          simp only [streamRead, List.length_take] at hz
          rcases Nat.min_eq_zero_iff.mp hz with h0 | h0
          · omega
          · exact List.length_eq_zero.mp h0
        subst hnil
        simp
      · rw [if_neg hz]
        rw [ih]
        · simp only [streamRead]
          rw [List.append_assoc, List.take_append_drop]
        · have hlen : (remaining.drop bufferSize).length = remaining.length - bufferSize :=
            List.length_drop bufferSize remaining
          omega
  intro remaining written
  exact key remaining.length remaining written (Nat.le_refl _)

/-- Claim C2: the ImageStream imaging loop (aff4imager.cc:66-73) reads
fixed-size chunks, default buffer size 1024*1024 bytes, writing each chunk
to the image in order until a zero-length read, so for any chunk size of
at least 1 the concatenation of the bytes written equals the input
exactly; the loop is a total function, so it terminates. -/
theorem imaging_loop_copies_input (bufferSize : Nat) (h : 1 ≤ bufferSize)
    (input : List Char) :
    imageStreamLoop bufferSize input [] = input ∧
    ImageStream_default_buffer = 1024 * 1024 := by
  refine ⟨?_, rfl⟩
  simpa using imageStreamLoop_append bufferSize h input []

/-- Witness for C2 at the spec's end-to-end example: the 12-byte input
"Hello world!" imaged with buffer size 4, and with the worst-case chunk
size 1, is written back byte-identical. -/
theorem imaging_loop_copies_input_witness :
    (1 ≤ 4 ∧ (imageStreamLoop 4 "Hello world!".toList [] = "Hello world!".toList ∧
      ImageStream_default_buffer = 1024 * 1024)) ∧
    (1 ≤ 1 ∧ imageStreamLoop 1 "Hello world!".toList [] = "Hello world!".toList) :=
  ⟨⟨by decide, imaging_loop_copies_input 4 (by decide) ("Hello world!".toList)⟩,
   ⟨by decide, (imaging_loop_copies_input 1 (by decide) ("Hello world!".toList)).1⟩⟩

/-- Claim C7 (code bug in data_store.h:62-64): on the failing input, an
empty or released handle, operator-> fails fast through its CHECK, but
operator* has no guard at all: its body is only return *ptr_, a silent
null-pointer dereference, contradicting the claim that both dereference
operators guard against a null wrapped pointer. -/
theorem scoped_ptr_star_unguarded :
    AFF4ScopedPtr.star { ptr := none } = DerefOutcome.nullDereference ∧
    AFF4ScopedPtr.arrow { ptr := none } = DerefOutcome.checkFailed ∧
    (AFF4ScopedPtr.release { ptr := some 5 }).2 = { ptr := none } :=
  ⟨rfl, rfl, rfl⟩

/-- Claim C8: with --in set and --out unset, parseOptions
(aff4imager.cc:119-123) prints a usage error and returns INVALID_INPUT,
and none of its effects sets the write-mode attribute or calls
ImageStream, so no file I/O is attempted. -/
theorem invalid_input_before_io (f : String → String → AFF4Status)
    (opts : CmdOptions) (inp : String)
    (hin : opts.input = some inp) (hout : opts.output = none) :
    (parseOptions f (ParsedCmdLine.ok opts)).1 = AFF4Status.INVALID_INPUT ∧
    (parseOptions f (ParsedCmdLine.ok opts)).2.all
      (fun e => ! e.touchesIO) = true := by
  constructor
  · simp [parseOptions, hin, hout]
  · by_cases hv : opts.verbose <;>
      simp [parseOptions, hin, hout, hv, Effect.touchesIO]

/-- Witness for C8: imaging request for disk.dd with no output volume. -/
theorem invalid_input_before_io_witness :
    (parseOptions (fun _ _ => AFF4Status.IO_ERROR)
        (ParsedCmdLine.ok { view := false, verbose := false, truncate := false,
                            input := some "disk.dd", output := none,
                            positional := [] })).1 = AFF4Status.INVALID_INPUT ∧
    (parseOptions (fun _ _ => AFF4Status.IO_ERROR)
        (ParsedCmdLine.ok { view := false, verbose := false, truncate := false,
                            input := some "disk.dd", output := none,
                            positional := [] })).2.all
      (fun e => ! e.touchesIO) = true :=
  invalid_input_before_io (fun _ _ => AFF4Status.IO_ERROR)
    { view := false, verbose := false, truncate := false,
      input := some "disk.dd", output := none, positional := [] }
    "disk.dd" rfl rfl

/-- Claim C9 (code bug in aff4imager.cc:143-147): a malformed command line
(an ArgException from the TCLAP parse) is caught, the diagnostic is
printed, and parseOptions falls through to return STATUS_OK, so main
(aff4imager.cc:151-163) exits with status 0 even though the run failed;
genuine failure statuses such as INVALID_INPUT do map to non-zero exit
codes. -/
theorem argexception_exits_zero :
    parseOptions (fun _ _ => AFF4Status.IO_ERROR)
        (ParsedCmdLine.argError "Argument: -z does not exist" "imager") =
      (AFF4Status.STATUS_OK,
       [Effect.coutError "Argument: -z does not exist imager"]) ∧
    mainExitCode (parseOptions (fun _ _ => AFF4Status.IO_ERROR)
        (ParsedCmdLine.argError "Argument: -z does not exist" "imager")).1 = 0 ∧
    mainExitCode AFF4Status.INVALID_INPUT ≠ 0 ∧
    mainExitCode AFF4Status.IO_ERROR ≠ mainExitCode AFF4Status.INVALID_INPUT :=
  ⟨rfl, rfl, by decide, by decide⟩

/-- Claim C10 (code bug in aff4imager.cc:139-141): invoked with positional
volume paths and no --in, parseOptions only prints each index and name to
stdout; no effect opens a volume or loads triples into the resolver,
although the option's own help text promises the volumes will be loaded
and their metadata parsed. -/
theorem positional_volumes_only_printed :
    parseOptions (fun _ _ => AFF4Status.STATUS_OK)
        (ParsedCmdLine.ok { view := false, verbose := false, truncate := false,
                            input := none, output := none,
                            positional := ["vol1.zip", "vol2.zip"] }) =
      (AFF4Status.STATUS_OK,
       [Effect.coutFilename 0 "vol1.zip", Effect.coutFilename 1 "vol2.zip"]) :=
  rfl

/-- Claim C1: with the Identifier not yet cached, a successful open inserts
the instance into the ObjectCache keyed by the URN string and hands out
its address; a second open of the same Identifier returns that exact
address with the resolver state untouched (no fresh copy), and a mutation
written through the first handle's address is read back through the
second handle's address. -/
theorem open_cache_identity (reg : ClassFactory) (T : String) (ds : DataStore)
    (urn : URN) (i : Nat)
    (hmiss : ds.ObjectCache.find? (fun p => p.1 == urn.value) = none)
    (h1 : (ds.AFF4FactoryOpen reg T urn).handle = some i) :
    (ds.AFF4FactoryOpen reg T urn).state.ObjectCache.find?
        (fun p => p.1 == urn.value) = some (urn.value, i) ∧
    ((ds.AFF4FactoryOpen reg T urn).state.AFF4FactoryOpen reg T urn).handle = some i ∧
    ((ds.AFF4FactoryOpen reg T urn).state.AFF4FactoryOpen reg T urn).state =
      (ds.AFF4FactoryOpen reg T urn).state ∧
    ∀ d, (heapFind (heapWrite (ds.AFF4FactoryOpen reg T urn).state.heap i d) i).map
        (fun o => o.data) = some d := by
  cases hC : CreateInstance reg (ds.openKey urn) with
  | none =>
    have hopen : ds.AFF4FactoryOpen reg T urn =
        { handle := none, state := ds, warnings := [] } := by
      rw [AFF4FactoryOpen_miss_eq reg T ds urn hmiss, hC]
    rw [hopen] at h1
    simp at h1
  | some cls =>
    by_cases hl : cls.loadOk
    · by_cases hd : dynCast T cls
      · have hopen : ds.AFF4FactoryOpen reg T urn =
            { handle := some ds.nextId
              state := { store := ds.store
                         ObjectCache := (urn.value, ds.nextId) :: ds.ObjectCache
                         heap := (ds.nextId,
                            { cls := cls, urnValue := urn.value, data := "" }) :: ds.heap
                         nextId := ds.nextId + 1 }
              warnings := [] } := by
          rw [AFF4FactoryOpen_miss_eq reg T ds urn hmiss, hC]
          simp [hl, hd]
        rw [hopen] at h1 ⊢
        simp only [OpenResult.handle] at h1
        have hi : ds.nextId = i := Option.some.inj h1
        subst hi
        have hfind : ((urn.value, ds.nextId) :: ds.ObjectCache).find?
            (fun p => p.1 == urn.value) = some (urn.value, ds.nextId) := by
          simp [List.find?]
        have hheap : heapFind
            ((ds.nextId, { cls := cls, urnValue := urn.value, data := "" }) :: ds.heap)
            ds.nextId =
            some { cls := cls, urnValue := urn.value, data := "" } := by
          simp [heapFind, List.find?]
        refine ⟨hfind, ?_, ?_, ?_⟩
        · rw [AFF4FactoryOpen_hit_eq reg T _ urn urn.value ds.nextId hfind]
          simp only [OpenResult.state] at hheap ⊢
          rw [hheap]
          simp [hd]
        · rw [AFF4FactoryOpen_hit_eq reg T _ urn urn.value ds.nextId hfind]
          simp only [OpenResult.state] at hheap ⊢
          rw [hheap]
        · intro d
          simp [heapWrite, heapFind, List.find?]
      · have hopen : (ds.AFF4FactoryOpen reg T urn).handle = none := by
          rw [AFF4FactoryOpen_miss_eq reg T ds urn hmiss, hC]
          simp [hl, hd]
        rw [hopen] at h1
        simp at h1
    · have hopen : (ds.AFF4FactoryOpen reg T urn).handle = none := by
        rw [AFF4FactoryOpen_miss_eq reg T ds urn hmiss, hC]
        simp [hl]
      rw [hopen] at h1
      simp at h1

/-- Witness for C1: the first open of demoURN on a fresh resolver returns
address 0, caches it, and a second open returns the same address 0
without touching the state; a mutation written at address 0 reads back. -/
theorem open_cache_identity_witness :
    (demoDS.AFF4FactoryOpen demoReg "AFF4Stream" demoURN).state.ObjectCache.find?
        (fun p => p.1 == demoURN.value) = some (demoURN.value, 0) ∧
    ((demoDS.AFF4FactoryOpen demoReg "AFF4Stream" demoURN).state.AFF4FactoryOpen
        demoReg "AFF4Stream" demoURN).handle = some 0 ∧
    ((demoDS.AFF4FactoryOpen demoReg "AFF4Stream" demoURN).state.AFF4FactoryOpen
        demoReg "AFF4Stream" demoURN).state =
      (demoDS.AFF4FactoryOpen demoReg "AFF4Stream" demoURN).state ∧
    (heapFind (heapWrite
        (demoDS.AFF4FactoryOpen demoReg "AFF4Stream" demoURN).state.heap
        0 "mutated") 0).map (fun o => o.data) = some "mutated" :=
  have h := open_cache_identity demoReg "AFF4Stream" demoDS demoURN 0 rfl rfl
  ⟨h.1, h.2.1, h.2.2.1, h.2.2.2 "mutated"⟩

/-- Claim C3: AFF4FactoryOpen never returns a handle to an object that does
not support the requested capability T: every non-empty handle addresses
an object in the resulting state whose dynamic_cast to T succeeds, and a
cached object whose cast to T fails yields the empty handle (none, the
handle whose negation is true and whose get() is null). -/
theorem open_narrowing_sound (reg : ClassFactory) (T : String) (ds : DataStore)
    (urn : URN) :
    (∀ i, (ds.AFF4FactoryOpen reg T urn).handle = some i →
        ∃ obj, heapFind (ds.AFF4FactoryOpen reg T urn).state.heap i = some obj ∧
          dynCast T obj.cls = true) ∧
    (∀ (k : String) (oid : Nat) (obj : AFF4Object),
        ds.ObjectCache.find? (fun p => p.1 == urn.value) = some (k, oid) →
        heapFind ds.heap oid = some obj →
        dynCast T obj.cls = false →
        (ds.AFF4FactoryOpen reg T urn).handle = none) := by
  constructor
  · intro i hi
    cases hcache : ds.ObjectCache.find? (fun p => p.1 == urn.value) with
    | some entry =>
      obtain ⟨k, oid⟩ := entry
      rw [AFF4FactoryOpen_hit_eq reg T ds urn k oid hcache] at hi ⊢
      cases hheap : heapFind ds.heap oid with
      | some obj =>
        rw [hheap] at hi
        have hi2 : (if dynCast T obj.cls then some oid else none) = some i := hi
        by_cases hd : dynCast T obj.cls
        · rw [if_pos hd] at hi2
          have hoid : oid = i := Option.some.inj hi2
          subst hoid
          exact ⟨obj, hheap, hd⟩
        · rw [if_neg hd] at hi2
          exact Option.noConfusion hi2
      | none =>
        rw [hheap] at hi
        exact Option.noConfusion hi
    | none =>
      cases hC : CreateInstance reg (ds.openKey urn) with
      | none =>
        rw [AFF4FactoryOpen_miss_eq reg T ds urn hcache, hC] at hi
        simp at hi
      | some cls =>
        by_cases hl : cls.loadOk
        · by_cases hd : dynCast T cls
          · have hopen : ds.AFF4FactoryOpen reg T urn =
                { handle := some ds.nextId
                  state := { store := ds.store
                             ObjectCache := (urn.value, ds.nextId) :: ds.ObjectCache
                             heap := (ds.nextId,
                                { cls := cls, urnValue := urn.value, data := "" }) :: ds.heap
                             nextId := ds.nextId + 1 }
                  warnings := [] } := by
              rw [AFF4FactoryOpen_miss_eq reg T ds urn hcache, hC]
              simp [hl, hd]
            rw [hopen] at hi ⊢
            simp only [OpenResult.handle] at hi
            have : ds.nextId = i := Option.some.inj hi
            subst this
            refine ⟨{ cls := cls, urnValue := urn.value, data := "" }, ?_, hd⟩
            simp [heapFind, List.find?]
          · have hopen : (ds.AFF4FactoryOpen reg T urn).handle = none := by
              rw [AFF4FactoryOpen_miss_eq reg T ds urn hcache, hC]
              simp [hl, hd]
            rw [hopen] at hi
            simp at hi
        · have hopen : (ds.AFF4FactoryOpen reg T urn).handle = none := by
            rw [AFF4FactoryOpen_miss_eq reg T ds urn hcache, hC]
            simp [hl]
          rw [hopen] at hi
          simp at hi
  · intro k oid obj hcache hheap hd
    rw [AFF4FactoryOpen_hit_eq reg T ds urn k oid hcache, hheap]
    simp [hd]

/-- Witness for C3: the cached FileBackedObject does not support the
AFF4Volume capability, so opening demoURN as AFF4Volume returns the empty
handle. -/
theorem open_narrowing_sound_witness :
    (demoCachedDS.AFF4FactoryOpen demoReg "AFF4Volume" demoURN).handle = none :=
  (open_narrowing_sound demoReg "AFF4Volume" demoCachedDS demoURN).2
    demoURN.value 0 demoObj rfl rfl rfl

/-- Claim C4: on a cache miss the factory consults its sources in a fixed
order (data_store.h:277-293): when the triple store declares an AFF4_TYPE
for the Identifier, the Class Registry is asked for exactly that type
identifier (failure there ends the open, the scheme is not tried); with
no declared type the registry is asked for the URN scheme alone; and when
the consulted key has no constructor the open returns the empty handle
with the resolver state, in particular the ObjectCache, unmodified. -/
theorem open_lookup_order (reg : ClassFactory) (T : String) (ds : DataStore)
    (urn : URN)
    (hmiss : ds.ObjectCache.find? (fun p => p.1 == urn.value) = none) :
    (∀ tv, ds.Get urn AFF4_TYPE = some tv →
        CreateInstance reg tv = none →
        (ds.AFF4FactoryOpen reg T urn).handle = none ∧
        (ds.AFF4FactoryOpen reg T urn).state = ds) ∧
    (∀ tv cls, ds.Get urn AFF4_TYPE = some tv →
        CreateInstance reg tv = some cls → cls.loadOk = true →
        heapFind (ds.AFF4FactoryOpen reg T urn).state.heap ds.nextId =
          some { cls := cls, urnValue := urn.value, data := "" }) ∧
    (ds.Get urn AFF4_TYPE = none →
        CreateInstance reg (URN.parseScheme urn) = none →
        (ds.AFF4FactoryOpen reg T urn).handle = none ∧
        (ds.AFF4FactoryOpen reg T urn).state = ds) ∧
    (∀ cls, ds.Get urn AFF4_TYPE = none →
        CreateInstance reg (URN.parseScheme urn) = some cls → cls.loadOk = true →
        heapFind (ds.AFF4FactoryOpen reg T urn).state.heap ds.nextId =
          some { cls := cls, urnValue := urn.value, data := "" }) := by
  refine ⟨?_, ?_, ?_, ?_⟩
  · intro tv hGet hC
    have hk : ds.openKey urn = tv := by unfold DataStore.openKey; rw [hGet]
    rw [AFF4FactoryOpen_miss_eq reg T ds urn hmiss, hk, hC]
    exact ⟨rfl, rfl⟩
  · intro tv cls hGet hC hl
    have hk : ds.openKey urn = tv := by unfold DataStore.openKey; rw [hGet]
    rw [AFF4FactoryOpen_miss_eq reg T ds urn hmiss, hk, hC]
    simp [hl, heapFind, List.find?]
  · intro hGet hC
    have hk : ds.openKey urn = URN.parseScheme urn := by
      unfold DataStore.openKey; rw [hGet]
    rw [AFF4FactoryOpen_miss_eq reg T ds urn hmiss, hk, hC]
    exact ⟨rfl, rfl⟩
  · intro cls hGet hC hl
    have hk : ds.openKey urn = URN.parseScheme urn := by
      unfold DataStore.openKey; rw [hGet]
    rw [AFF4FactoryOpen_miss_eq reg T ds urn hmiss, hk, hC]
    simp [hl, heapFind, List.find?]

/-- Witness for C4: a URN with no declared type and the unregistered
scheme zz-unknown opens to the empty handle and leaves the fresh
resolver untouched. -/
theorem open_lookup_order_witness :
    (demoDS.AFF4FactoryOpen demoReg "AFF4Stream" unknownURN).handle = none ∧
    (demoDS.AFF4FactoryOpen demoReg "AFF4Stream" unknownURN).state = demoDS :=
  (open_lookup_order demoReg "AFF4Stream" demoDS unknownURN rfl).2.2.1 rfl rfl

/-- Counterexample to claim C5 as stated: opening file://missing.dd with
no declared type constructs through the registry key "file" (the URN
scheme); when its LoadFromURN fails, the open aborts with the empty
handle, yet the logged warning interpolates type_urn, which is still the
default-constructed empty URN on the scheme path, so the warning does not
include the attempted type identifier "file" (data_store.h:297-299). -/
theorem open_load_failure_warning_counterexample :
    (c5DS.AFF4FactoryOpen c5Reg "AFF4Stream" c5URN).handle = none ∧
    c5DS.openKey c5URN = "file" ∧
    (c5DS.AFF4FactoryOpen c5Reg "AFF4Stream" c5URN).warnings =
      [{ urnPart := "file://missing.dd", typePart := "" }] ∧
    (c5DS.AFF4FactoryOpen c5Reg "AFF4Stream" c5URN).warnings ≠
      [{ urnPart := "file://missing.dd", typePart := "file" }] :=
  ⟨rfl, rfl, rfl, by decide⟩

/-- Claim C5 as amended: when the newly constructed object's LoadFromURN
does not return success, the open aborts: it returns the empty handle,
does not insert the object into the ObjectCache (the resolver state is
unchanged), and logs one warning naming the URN together with the
declared type identifier when the triple store held one, and the empty
string when construction fell back to the URN scheme. -/
theorem open_load_failure_aborts (reg : ClassFactory) (T : String)
    (ds : DataStore) (urn : URN) (cls : AFF4Class)
    (hmiss : ds.ObjectCache.find? (fun p => p.1 == urn.value) = none)
    (hcls : CreateInstance reg (ds.openKey urn) = some cls)
    (hload : cls.loadOk = false) :
    (ds.AFF4FactoryOpen reg T urn).handle = none ∧
    (ds.AFF4FactoryOpen reg T urn).state = ds ∧
    (ds.AFF4FactoryOpen reg T urn).warnings =
      [{ urnPart := urn.value, typePart := (ds.Get urn AFF4_TYPE).getD "" }] := by
  rw [AFF4FactoryOpen_miss_eq reg T ds urn hmiss, hcls]
  simp [hload]

/-- Witness for C5 as amended, at the scheme-path load failure. -/
theorem open_load_failure_aborts_witness :
    (c5DS.AFF4FactoryOpen c5Reg "AFF4Stream" c5URN).handle = none ∧
    (c5DS.AFF4FactoryOpen c5Reg "AFF4Stream" c5URN).state = c5DS ∧
    (c5DS.AFF4FactoryOpen c5Reg "AFF4Stream" c5URN).warnings =
      [{ urnPart := c5URN.value, typePart := (c5DS.Get c5URN AFF4_TYPE).getD "" }] :=
  open_load_failure_aborts c5Reg "AFF4Stream" c5DS c5URN c5Cls rfl rfl rfl

/-- Claim C6 (implicit behaviour of data_store.h:304-309): when a newly
constructed object loads successfully but its concrete class does not
support the requested capability T, the returned handle is empty, yet the
object is nevertheless inserted into the ObjectCache keyed by the URN
string; a later open requesting a capability T2 the class does support
returns that cached instance. -/
theorem open_failed_narrowing_caches (reg : ClassFactory) (T T2 : String)
    (ds : DataStore) (urn : URN) (cls : AFF4Class)
    (hmiss : ds.ObjectCache.find? (fun p => p.1 == urn.value) = none)
    (hcls : CreateInstance reg (ds.openKey urn) = some cls)
    (hload : cls.loadOk = true)
    (hnoT : dynCast T cls = false) :
    (ds.AFF4FactoryOpen reg T urn).handle = none ∧
    (ds.AFF4FactoryOpen reg T urn).state.ObjectCache.find?
        (fun p => p.1 == urn.value) = some (urn.value, ds.nextId) ∧
    heapFind (ds.AFF4FactoryOpen reg T urn).state.heap ds.nextId =
      some { cls := cls, urnValue := urn.value, data := "" } ∧
    (dynCast T2 cls = true →
      ((ds.AFF4FactoryOpen reg T urn).state.AFF4FactoryOpen reg T2 urn).handle =
        some ds.nextId) := by
  have hopen : ds.AFF4FactoryOpen reg T urn =
      { handle := none
        state := { store := ds.store
                   ObjectCache := (urn.value, ds.nextId) :: ds.ObjectCache
                   heap := (ds.nextId,
                      { cls := cls, urnValue := urn.value, data := "" }) :: ds.heap
                   nextId := ds.nextId + 1 }
        warnings := [] } := by
    rw [AFF4FactoryOpen_miss_eq reg T ds urn hmiss, hcls]
    simp [hload, hnoT]
  rw [hopen]
  have hfind : ((urn.value, ds.nextId) :: ds.ObjectCache).find?
      (fun p => p.1 == urn.value) = some (urn.value, ds.nextId) := by
    simp [List.find?]
  have hheap : heapFind
      ((ds.nextId, { cls := cls, urnValue := urn.value, data := "" }) :: ds.heap)
      ds.nextId = some { cls := cls, urnValue := urn.value, data := "" } := by
    simp [heapFind, List.find?]
  refine ⟨rfl, hfind, hheap, ?_⟩
  intro hT2
  rw [AFF4FactoryOpen_hit_eq reg T2 _ urn urn.value ds.nextId hfind]
  simp only [OpenResult.state] at hheap ⊢
  rw [hheap]
  simp [hT2]

/-- Witness for C6: opening demoURN as AFF4Volume fails the narrowing but
still caches the FileBackedObject at address 0; the follow-up open as
AFF4Stream returns the cached address 0. -/
theorem open_failed_narrowing_caches_witness :
    (demoDS.AFF4FactoryOpen demoReg "AFF4Volume" demoURN).handle = none ∧
    (demoDS.AFF4FactoryOpen demoReg "AFF4Volume" demoURN).state.ObjectCache.find?
        (fun p => p.1 == demoURN.value) = some (demoURN.value, 0) ∧
    heapFind (demoDS.AFF4FactoryOpen demoReg "AFF4Volume" demoURN).state.heap 0 =
      some { cls := demoCls, urnValue := demoURN.value, data := "" } ∧
    ((demoDS.AFF4FactoryOpen demoReg "AFF4Volume" demoURN).state.AFF4FactoryOpen
        demoReg "AFF4Stream" demoURN).handle = some 0 :=
  have h := open_failed_narrowing_caches demoReg "AFF4Volume" "AFF4Stream"
    demoDS demoURN demoCls rfl rfl rfl rfl
  ⟨h.1, h.2.1, h.2.2.1, h.2.2.2 rfl⟩
